import Mathlib

/-!
Verification of the payeasy Supabase integration layer.

Shallow embedding of:
- apps/web/lib/supabase/client.ts  (createBrowserClient, getSupabaseClient,
  resetClientInstance)
- apps/web/lib/supabase/server.ts  (createAdminClient, getAdminClient,
  resetAdminClientInstance, createServerClient, getCurrentUser,
  getCurrentSession)
- apps/web/hooks/useAuth.ts        (useAuth hook: initial session fetch,
  signOut)

JavaScript exceptions are modelled with `Except String` (exceptions carried
by their message where only the message is observable) or `Except JsErr`.
Values of `process.env` are `Option String`; JS truthiness of such a value
is `truthy` (undefined and the empty string are falsy). Object identity of
constructed client instances is modelled by tagging each construction with
a fresh allocation number drawn from the module state.
-/

-- ──────────────────────────────────────────────────────────────
-- Basic data model
-- ──────────────────────────────────────────────────────────────

/-- Opaque user record returned by the SDK (only identity matters here). -/
structure User where
  id : String
  deriving DecidableEq, Repr

/-- Opaque session bundle returned by the SDK; carries its user. -/
structure Session where
  user : User
  accessToken : String
  deriving DecidableEq, Repr

/-- A JavaScript thrown value: either an `Error` instance with a message, or
some non-`Error` value. Mirrors the checks `err instanceof Error`. -/
structure JsErr where
  isErrorInstance : Bool
  message : String
  deriving DecidableEq, Repr

/-- The message the hook code extracts from a caught value:
`err instanceof Error ? err.message : fallback`. -/
def errMessage (fallback : String) (e : JsErr) : String :=
  if e.isErrorInstance then e.message else fallback

/-- The relevant part of `process.env`. A variable is either unset (`none`)
or set to a string (possibly empty). -/
structure Env where
  NEXT_PUBLIC_SUPABASE_URL : Option String
  NEXT_PUBLIC_SUPABASE_ANON_KEY : Option String
  SUPABASE_SERVICE_ROLE_KEY : Option String
  deriving DecidableEq, Repr

/-- JS truthiness of an optional environment string: `undefined` and `""`
are falsy, every other string is truthy. `truthy x = false` models `!x`
being true in the TypeScript guards. -/
def truthy : Option String → Bool
  | none => false
  | some s => s != ""

-- ──────────────────────────────────────────────────────────────
-- Client construction (client.ts / server.ts)
-- ──────────────────────────────────────────────────────────────

/-- The `auth` options object passed to the SDK constructor. -/
structure AuthConfig where
  autoRefreshToken : Bool
  persistSession : Bool
  detectSessionInUrl : Bool
  flowType : Option String
  deriving DecidableEq, Repr

/-- A constructed Supabase client, as far as this layer configures it:
connection parameters, auth options, the X-Client-Info header and the
optional db schema option. -/
structure Client where
  supabaseUrl : String
  supabaseKey : String
  auth : AuthConfig
  clientInfo : String
  dbSchema : Option String
  deriving DecidableEq, Repr

/-- Embedding of `createBrowserClient` (client.ts lines 296 to 319): reads
NEXT_PUBLIC_SUPABASE_URL and NEXT_PUBLIC_SUPABASE_ANON_KEY, throws the
configuration error when either is falsy, otherwise builds the browser
client with persistSession, autoRefreshToken, detectSessionInUrl all true
and PKCE flow. -/
def createBrowserClient (env : Env) : Except String Client :=
  let supabaseUrl := env.NEXT_PUBLIC_SUPABASE_URL
  let supabaseAnonKey := env.NEXT_PUBLIC_SUPABASE_ANON_KEY
  if !(truthy supabaseUrl) || !(truthy supabaseAnonKey) then
    Except.error "Missing Supabase environment variables. Please set NEXT_PUBLIC_SUPABASE_URL and NEXT_PUBLIC_SUPABASE_ANON_KEY"
  else
    Except.ok
      { supabaseUrl := supabaseUrl.getD ""
        supabaseKey := supabaseAnonKey.getD ""
        auth :=
          { autoRefreshToken := true
            persistSession := true
            detectSessionInUrl := true
            flowType := some "pkce" }
        clientInfo := "payeasy-web@1.0.0"
        dbSchema := none }

/-- Embedding of `createAdminClient` (server.ts lines 38 to 63): reads
NEXT_PUBLIC_SUPABASE_URL and SUPABASE_SERVICE_ROLE_KEY, throws the
configuration error when either is falsy, otherwise builds the admin
client with autoRefreshToken, persistSession, detectSessionInUrl all
false and schema public. -/
def createAdminClient (env : Env) : Except String Client :=
  let supabaseUrl := env.NEXT_PUBLIC_SUPABASE_URL
  let supabaseServiceKey := env.SUPABASE_SERVICE_ROLE_KEY
  if !(truthy supabaseUrl) || !(truthy supabaseServiceKey) then
    Except.error "Missing Supabase environment variables. Please set NEXT_PUBLIC_SUPABASE_URL and SUPABASE_SERVICE_ROLE_KEY"
  else
    Except.ok
      { supabaseUrl := supabaseUrl.getD ""
        supabaseKey := supabaseServiceKey.getD ""
        auth :=
          { autoRefreshToken := false
            persistSession := false
            detectSessionInUrl := false
            flowType := none }
        clientInfo := "payeasy-admin@1.0.0"
        dbSchema := some "public" }

/-- A cookie as passed to the set-callback: name, value and serialized
options. -/
structure Cookie where
  name : String
  value : String
  options : String
  deriving DecidableEq, Repr

/-- The Next.js request cookie store (`await cookies()`): the cookies of the
current request, plus the behaviour of the underlying `set` operation,
which may throw (for instance during Server Component render). -/
structure CookieStore where
  cookies : List Cookie
  setThrows : Cookie → Option JsErr

/-- One `cookieStore.set(name, value, options)` call: appends the cookie on
success; on the inputs where the store forbids mutation it leaves the jar
unchanged and reports the thrown error. -/
def cookieStoreSet (store : CookieStore) (c : Cookie) : CookieStore × Option JsErr :=
  match store.setThrows c with
  | none => ({ store with cookies := store.cookies ++ [c] }, none)
  | some e => (store, some e)

/-- The `cookiesToSet.forEach(set)` loop body, without the surrounding
try/catch: applies the sets left to right, stopping at (and reporting) the
first thrown error. -/
def cookieSetLoop (store : CookieStore) : List Cookie → CookieStore × Option JsErr
  | [] => (store, none)
  | c :: rest =>
    match cookieStoreSet store c with
    | (s2, none) => cookieSetLoop s2 rest
    | (s2, some e) => (s2, some e)

/-- Embedding of the `getAll()` cookie callback installed by
`createServerClient` (server.ts lines 118 to 120): returns
`cookieStore.getAll()` unmodified. -/
def serverCookiesGetAll (store : CookieStore) : List Cookie :=
  store.cookies

/-- Embedding of the `setAll(cookiesToSet)` cookie callback installed by
`createServerClient` (server.ts lines 121 to 130): runs the forEach loop
inside try/catch; a thrown error is caught and ignored, so the callback
always returns normally with the store as mutated so far. -/
def serverCookiesSetAll (store : CookieStore) (cookiesToSet : List Cookie) :
    Except JsErr CookieStore :=
  match cookieSetLoop store cookiesToSet with
  | (s2, none) => Except.ok s2
  | (s2, some _) => Except.ok s2

/-- The result of `createServerClient`: the configured client plus the
cookie store its callbacks close over. -/
structure ServerClientR where
  client : Client
  cookieStore : CookieStore

/-- Embedding of `createServerClient` (server.ts lines 104 to 144): reads
NEXT_PUBLIC_SUPABASE_URL and NEXT_PUBLIC_SUPABASE_ANON_KEY, throws the
configuration error when either is falsy, otherwise builds the
cookie-scoped client with persistSession and autoRefreshToken true,
detectSessionInUrl false and PKCE flow, closing over the request cookie
store. -/
def createServerClient (env : Env) (cookieStore : CookieStore) :
    Except String ServerClientR :=
  let supabaseUrl := env.NEXT_PUBLIC_SUPABASE_URL
  let supabaseAnonKey := env.NEXT_PUBLIC_SUPABASE_ANON_KEY
  if !(truthy supabaseUrl) || !(truthy supabaseAnonKey) then
    Except.error "Missing Supabase environment variables. Please set NEXT_PUBLIC_SUPABASE_URL and NEXT_PUBLIC_SUPABASE_ANON_KEY"
  else
    Except.ok
      { client :=
          { supabaseUrl := supabaseUrl.getD ""
            supabaseKey := supabaseAnonKey.getD ""
            auth :=
              { autoRefreshToken := true
                persistSession := true
                detectSessionInUrl := false
                flowType := some "pkce" }
            clientInfo := "payeasy-server@1.0.0"
            dbSchema := none }
        cookieStore := cookieStore }

/-- Whether an `Except` is the error case (a thrown exception). -/
def isThrown {ε α : Type} : Except ε α → Bool
  | Except.error _ => true
  | Except.ok _ => false

/-- An environment with every variable unset. -/
def emptyEnv : Env :=
  { NEXT_PUBLIC_SUPABASE_URL := none
    NEXT_PUBLIC_SUPABASE_ANON_KEY := none
    SUPABASE_SERVICE_ROLE_KEY := none }

/-- An environment with every variable set to a nonempty value. -/
def goodEnv : Env :=
  { NEXT_PUBLIC_SUPABASE_URL := some "https://example.supabase.co"
    NEXT_PUBLIC_SUPABASE_ANON_KEY := some "anon-key"
    SUPABASE_SERVICE_ROLE_KEY := some "service-role-key" }

/-- A request cookie store with no cookies whose set operation never
throws. -/
def emptyCookieStore : CookieStore :=
  { cookies := [], setThrows := fun _ => none }

-- ──────────────────────────────────────────────────────────────
-- C1: missing configuration fails construction
-- ──────────────────────────────────────────────────────────────

/-- Claim C1: in every environment where the service URL or the
corresponding key variable is unset or empty, construction throws the
configuration error, for all three constructors: the browser client
(NEXT_PUBLIC_SUPABASE_URL, NEXT_PUBLIC_SUPABASE_ANON_KEY), the admin
client (NEXT_PUBLIC_SUPABASE_URL, SUPABASE_SERVICE_ROLE_KEY) and the
cookie-scoped server client (NEXT_PUBLIC_SUPABASE_URL,
NEXT_PUBLIC_SUPABASE_ANON_KEY); the error is raised at construction. -/
theorem missing_env_fails_construction (env : Env) :
    (truthy env.NEXT_PUBLIC_SUPABASE_URL = false ∨
        truthy env.NEXT_PUBLIC_SUPABASE_ANON_KEY = false →
      isThrown (createBrowserClient env) = true) ∧
    (truthy env.NEXT_PUBLIC_SUPABASE_URL = false ∨
        truthy env.SUPABASE_SERVICE_ROLE_KEY = false →
      isThrown (createAdminClient env) = true) ∧
    (truthy env.NEXT_PUBLIC_SUPABASE_URL = false ∨
        truthy env.NEXT_PUBLIC_SUPABASE_ANON_KEY = false →
      ∀ store : CookieStore, isThrown (createServerClient env store) = true) := by
  refine ⟨fun h => ?_, fun h => ?_, fun h store => ?_⟩
  · unfold createBrowserClient
    rcases h with h | h <;> simp [h, isThrown]
  · unfold createAdminClient
    rcases h with h | h <;> simp [h, isThrown]
  · unfold createServerClient
    rcases h with h | h <;> simp [h, isThrown]

/-- Witness for C1 at the concrete empty environment. -/
theorem missing_env_fails_construction_witness :
    isThrown (createBrowserClient emptyEnv) = true ∧
    isThrown (createAdminClient emptyEnv) = true ∧
    isThrown (createServerClient emptyEnv emptyCookieStore) = true :=
  ⟨(missing_env_fails_construction emptyEnv).1 (Or.inl (by decide)),
   (missing_env_fails_construction emptyEnv).2.1 (Or.inl (by decide)),
   (missing_env_fails_construction emptyEnv).2.2 (Or.inl (by decide))
     emptyCookieStore⟩

-- ──────────────────────────────────────────────────────────────
-- C7: fixed auth configuration of the two server-side clients
-- ──────────────────────────────────────────────────────────────

/-- The admin client value constructed from `goodEnv`. -/
def adminClientSample : Client :=
  { supabaseUrl := "https://example.supabase.co"
    supabaseKey := "service-role-key"
    auth :=
      { autoRefreshToken := false
        persistSession := false
        detectSessionInUrl := false
        flowType := none }
    clientInfo := "payeasy-admin@1.0.0"
    dbSchema := some "public" }

/-- The server client value constructed from `goodEnv` over the empty
cookie store. -/
def serverClientSample : ServerClientR :=
  { client :=
      { supabaseUrl := "https://example.supabase.co"
        supabaseKey := "anon-key"
        auth :=
          { autoRefreshToken := true
            persistSession := true
            detectSessionInUrl := false
            flowType := some "pkce" }
        clientInfo := "payeasy-server@1.0.0"
        dbSchema := none }
    cookieStore := emptyCookieStore }

/-- Claim C7: every successfully constructed admin client has session
persistence and auto token refresh disabled, and, independently, every
successfully constructed cookie-scoped server client has both enabled;
each conjunct holds for every environment and cookie store on its own,
whether or not the other constructor would succeed there. -/
theorem server_clients_auth_config (env : Env) (store : CookieStore) :
    (∀ ca : Client, createAdminClient env = Except.ok ca →
      ca.auth.persistSession = false ∧ ca.auth.autoRefreshToken = false) ∧
    (∀ cs : ServerClientR, createServerClient env store = Except.ok cs →
      cs.client.auth.persistSession = true ∧ cs.client.auth.autoRefreshToken = true) := by
  constructor
  · intro ca hA
    simp only [createAdminClient] at hA
    split at hA
    · exact absurd hA (by simp)
    · cases hA
      exact ⟨rfl, rfl⟩
  · intro cs hS
    simp only [createServerClient] at hS
    split at hS
    · exact absurd hS (by simp)
    · cases hS
      exact ⟨rfl, rfl⟩

/-- Witness for C7 at the concrete good environment. -/
theorem server_clients_auth_config_witness :
    (adminClientSample.auth.persistSession = false ∧
      adminClientSample.auth.autoRefreshToken = false) ∧
    (serverClientSample.client.auth.persistSession = true ∧
      serverClientSample.client.auth.autoRefreshToken = true) :=
  ⟨(server_clients_auth_config goodEnv emptyCookieStore).1 adminClientSample rfl,
   (server_clients_auth_config goodEnv emptyCookieStore).2 serverClientSample rfl⟩

-- ──────────────────────────────────────────────────────────────
-- Singleton accessors (client.ts / server.ts module state)
-- ──────────────────────────────────────────────────────────────

/-- Module state of client.ts: the `clientInstance` variable (caching a
constructed instance together with its allocation number, which models JS
object identity) and the allocator counter supplying fresh object
identities. -/
structure BrowserModuleState where
  clientInstance : Option (Nat × Client)
  nextObjId : Nat
  deriving DecidableEq, Repr

/-- Embedding of `getSupabaseClient` (client.ts lines 327 to 332): returns
the cached instance when present, otherwise calls `createBrowserClient`
(propagating its configuration error) and caches the freshly allocated
instance. -/
def getSupabaseClient (env : Env) (s : BrowserModuleState) :
    Except String ((Nat × Client) × BrowserModuleState) :=
  match s.clientInstance with
  | some c => Except.ok (c, s)
  | none =>
    match createBrowserClient env with
    | Except.error e => Except.error e
    | Except.ok cl =>
      Except.ok ((s.nextObjId, cl),
        { clientInstance := some (s.nextObjId, cl), nextObjId := s.nextObjId + 1 })

/-- Embedding of `resetClientInstance` (client.ts lines 337 to 339): clears
the cached instance. -/
def resetClientInstance (s : BrowserModuleState) : BrowserModuleState :=
  { clientInstance := none, nextObjId := s.nextObjId }

/-- Module state of the admin singleton in server.ts: the
`adminClientInstance` variable and the allocator counter. -/
structure AdminModuleState where
  adminClientInstance : Option (Nat × Client)
  nextObjId : Nat
  deriving DecidableEq, Repr

/-- Embedding of `getAdminClient` (server.ts lines 76 to 81): returns the
cached instance when present, otherwise calls `createAdminClient`
(propagating its configuration error) and caches the freshly allocated
instance. -/
def getAdminClient (env : Env) (s : AdminModuleState) :
    Except String ((Nat × Client) × AdminModuleState) :=
  match s.adminClientInstance with
  | some c => Except.ok (c, s)
  | none =>
    match createAdminClient env with
    | Except.error e => Except.error e
    | Except.ok cl =>
      Except.ok ((s.nextObjId, cl),
        { adminClientInstance := some (s.nextObjId, cl), nextObjId := s.nextObjId + 1 })

/-- Embedding of `resetAdminClientInstance` (server.ts lines 86 to 88):
clears the cached instance. -/
def resetAdminClientInstance (s : AdminModuleState) : AdminModuleState :=
  { adminClientInstance := none, nextObjId := s.nextObjId }

/-- A browser module state is well formed when any cached allocation number
is below the allocator counter (true of every reachable state, starting
from the empty cache with counter zero). -/
def BrowserModuleState.wf (s : BrowserModuleState) : Prop :=
  ∀ c, s.clientInstance = some c → c.1 < s.nextObjId

/-- Well-formedness of the admin module state, as for the browser state. -/
def AdminModuleState.wf (s : AdminModuleState) : Prop :=
  ∀ c, s.adminClientInstance = some c → c.1 < s.nextObjId

/-- After a successful `getSupabaseClient`, the returned instance is cached
and its allocation number is below the counter. -/
lemma getSupabaseClient_ok (env : Env) (s : BrowserModuleState)
    (c : Nat × Client) (s1 : BrowserModuleState) (hwf : s.wf)
    (h : getSupabaseClient env s = Except.ok (c, s1)) :
    s1.clientInstance = some c ∧ c.1 < s1.nextObjId := by
  unfold getSupabaseClient at h
  cases hs : s.clientInstance with
  | some c0 =>
    rw [hs] at h
    cases h
    exact ⟨hs, hwf _ hs⟩
  | none =>
    rw [hs] at h
    cases hc : createBrowserClient env with
    | error e => rw [hc] at h; exact absurd h (by simp)
    | ok cl =>
      rw [hc] at h
      cases h
      exact ⟨rfl, Nat.lt_succ_self _⟩

/-- After a successful `getAdminClient`, the returned instance is cached
and its allocation number is below the counter. -/
lemma getAdminClient_ok (env : Env) (s : AdminModuleState)
    (c : Nat × Client) (s1 : AdminModuleState) (hwf : s.wf)
    (h : getAdminClient env s = Except.ok (c, s1)) :
    s1.adminClientInstance = some c ∧ c.1 < s1.nextObjId := by
  unfold getAdminClient at h
  cases hs : s.adminClientInstance with
  | some c0 =>
    rw [hs] at h
    cases h
    exact ⟨hs, hwf _ hs⟩
  | none =>
    rw [hs] at h
    cases hc : createAdminClient env with
    | error e => rw [hc] at h; exact absurd h (by simp)
    | ok cl =>
      rw [hc] at h
      cases h
      exact ⟨rfl, Nat.lt_succ_self _⟩

-- ──────────────────────────────────────────────────────────────
-- C2: singleton caching and reset
-- ──────────────────────────────────────────────────────────────

/-- The browser client value constructed from `goodEnv`. -/
def browserClientSample : Client :=
  { supabaseUrl := "https://example.supabase.co"
    supabaseKey := "anon-key"
    auth :=
      { autoRefreshToken := true
        persistSession := true
        detectSessionInUrl := true
        flowType := some "pkce" }
    clientInfo := "payeasy-web@1.0.0"
    dbSchema := none }

/-- Claim C2: once `getSupabaseClient` has returned an instance, every
later call without an intervening reset returns the identical instance
and leaves the module state unchanged (so the state is a fixed point and
all subsequent calls agree); after `resetClientInstance`, the next call
constructs a new instance, distinct in identity from the cached one. The
same holds for `getAdminClient` with `resetAdminClientInstance`. -/
theorem singleton_caching (env : Env)
    (s : BrowserModuleState) (c : Nat × Client) (s1 : BrowserModuleState)
    (hwf : s.wf)
    (h : getSupabaseClient env s = Except.ok (c, s1))
    (t : AdminModuleState) (d : Nat × Client) (t1 : AdminModuleState)
    (hwfA : t.wf)
    (hA : getAdminClient env t = Except.ok (d, t1)) :
    getSupabaseClient env s1 = Except.ok (c, s1) ∧
    (∀ c2 s2, getSupabaseClient env (resetClientInstance s1) = Except.ok (c2, s2) →
      c2.1 ≠ c.1) ∧
    getAdminClient env t1 = Except.ok (d, t1) ∧
    (∀ d2 t2, getAdminClient env (resetAdminClientInstance t1) = Except.ok (d2, t2) →
      d2.1 ≠ d.1) := by
  obtain ⟨hc1, hlt1⟩ := getSupabaseClient_ok env s c s1 hwf h
  obtain ⟨hc2, hlt2⟩ := getAdminClient_ok env t d t1 hwfA hA
  refine ⟨?_, ?_, ?_, ?_⟩
  · unfold getSupabaseClient
    rw [hc1]
  · intro c2 s2 h2
    simp only [getSupabaseClient, resetClientInstance] at h2
    cases hcc : createBrowserClient env with
    | error e => rw [hcc] at h2; exact absurd h2 (by simp)
    | ok cl =>
      rw [hcc] at h2
      cases h2
      exact fun heq => absurd heq.symm (Nat.ne_of_lt hlt1)
  · unfold getAdminClient
    rw [hc2]
  · intro d2 t2 h2
    simp only [getAdminClient, resetAdminClientInstance] at h2
    cases hcc : createAdminClient env with
    | error e => rw [hcc] at h2; exact absurd h2 (by simp)
    | ok cl =>
      rw [hcc] at h2
      cases h2
      exact fun heq => absurd heq.symm (Nat.ne_of_lt hlt2)

/-- Witness for C2: a concrete run from the freshly loaded module states
(empty caches, counter zero) under the good environment. -/
theorem singleton_caching_witness :
    getSupabaseClient goodEnv ⟨some (0, browserClientSample), 1⟩ =
      Except.ok ((0, browserClientSample), ⟨some (0, browserClientSample), 1⟩) ∧
    ((1, browserClientSample) : Nat × Client).1 ≠ 0 ∧
    getAdminClient goodEnv ⟨some (0, adminClientSample), 1⟩ =
      Except.ok ((0, adminClientSample), ⟨some (0, adminClientSample), 1⟩) ∧
    ((1, adminClientSample) : Nat × Client).1 ≠ 0 := by
  have h := singleton_caching goodEnv
    ⟨none, 0⟩ (0, browserClientSample) ⟨some (0, browserClientSample), 1⟩
    (by intro c hc; simp at hc) rfl
    ⟨none, 0⟩ (0, adminClientSample) ⟨some (0, adminClientSample), 1⟩
    (by intro c hc; simp at hc) rfl
  exact ⟨h.1,
    h.2.1 (1, browserClientSample) ⟨some (1, browserClientSample), 2⟩ rfl,
    h.2.2.1,
    h.2.2.2 (1, adminClientSample) ⟨some (1, adminClientSample), 2⟩ rfl⟩

-- ──────────────────────────────────────────────────────────────
-- C3: getCurrentUser / getCurrentSession error behaviour
-- ──────────────────────────────────────────────────────────────

/-- Embedding of `getCurrentUser` (server.ts lines 155 to 167): awaits
`createServerClient` (whose configuration error propagates, there is no
try/catch), destructures the SDK response `{ data: { user }, error }`
(modelled as the pair `res`), and returns null when an error was reported
or the user is null, else the user. -/
def getCurrentUser (env : Env) (store : CookieStore)
    (res : Option User × Option String) : Except String (Option User) :=
  match createServerClient env store with
  | Except.error e => Except.error e
  | Except.ok _ =>
    let user := res.1
    let error := res.2
    if error.isSome || user.isNone then Except.ok none
    else Except.ok user

/-- Embedding of `getCurrentSession` (server.ts lines 174 to 186): same
shape as `getCurrentUser` over the SDK response
`{ data: { session }, error }`. -/
def getCurrentSession (env : Env) (store : CookieStore)
    (res : Option Session × Option String) : Except String (Option Session) :=
  match createServerClient env store with
  | Except.error e => Except.error e
  | Except.ok _ =>
    let session := res.1
    let error := res.2
    if error.isSome || session.isNone then Except.ok none
    else Except.ok session

/-- Counterexample to C3 as stated: with the environment unset — an error
arising while evaluating the helper — `getCurrentUser` does not return
null but raises the configuration error to its caller, because the inner
`createServerClient` call sits outside any try/catch. -/
theorem getCurrentUser_propagates_config_error :
    getCurrentUser emptyEnv emptyCookieStore (none, none) =
      Except.error "Missing Supabase environment variables. Please set NEXT_PUBLIC_SUPABASE_URL and NEXT_PUBLIC_SUPABASE_ANON_KEY" :=
  rfl

/-- Claim C3 amended: when the environment is configured, every error
reported by the SDK call (and every null user or session) makes the
helper return null rather than propagate, and the helper never raises;
but a missing configuration makes the inner client construction throw,
and that error does propagate to the caller (witnessed separately by the
counterexample). -/
theorem helpers_null_on_sdk_error (env : Env) (store : CookieStore)
    (resU : Option User × Option String) (resS : Option Session × Option String)
    (hu : truthy env.NEXT_PUBLIC_SUPABASE_URL = true)
    (hk : truthy env.NEXT_PUBLIC_SUPABASE_ANON_KEY = true) :
    isThrown (getCurrentUser env store resU) = false ∧
    (resU.2.isSome = true ∨ resU.1 = none →
      getCurrentUser env store resU = Except.ok none) ∧
    isThrown (getCurrentSession env store resS) = false ∧
    (resS.2.isSome = true ∨ resS.1 = none →
      getCurrentSession env store resS = Except.ok none) := by
  have hok : ∀ st : CookieStore,
      createServerClient env st =
        Except.ok { client :=
          { supabaseUrl := env.NEXT_PUBLIC_SUPABASE_URL.getD ""
            supabaseKey := env.NEXT_PUBLIC_SUPABASE_ANON_KEY.getD ""
            auth :=
              { autoRefreshToken := true
                persistSession := true
                detectSessionInUrl := false
                flowType := some "pkce" }
            clientInfo := "payeasy-server@1.0.0"
            dbSchema := none }, cookieStore := st } := by
    intro st
    unfold createServerClient
    simp [hu, hk]
  refine ⟨?_, fun h => ?_, ?_, fun h => ?_⟩
  · unfold getCurrentUser
    rw [hok store]
    dsimp only
    split <;> rfl
  · unfold getCurrentUser
    rw [hok store]
    rcases h with h | h
    · simp [h]
    · simp [h]
  · unfold getCurrentSession
    rw [hok store]
    dsimp only
    split <;> rfl
  · unfold getCurrentSession
    rw [hok store]
    rcases h with h | h
    · simp [h]
    · simp [h]

/-- Witness for the amended C3 at the good environment, with an SDK call
that reports an error. -/
theorem helpers_null_on_sdk_error_witness :
    isThrown (getCurrentUser goodEnv emptyCookieStore (none, some "boom")) = false ∧
    getCurrentUser goodEnv emptyCookieStore (none, some "boom") = Except.ok none ∧
    isThrown (getCurrentSession goodEnv emptyCookieStore (none, some "boom")) = false ∧
    getCurrentSession goodEnv emptyCookieStore (none, some "boom") = Except.ok none := by
  have h := helpers_null_on_sdk_error goodEnv emptyCookieStore
    (none, some "boom") (none, some "boom") (by decide) (by decide)
  exact ⟨h.1, h.2.1 (Or.inl (by decide)), h.2.2.1, h.2.2.2 (Or.inl (by decide))⟩

-- ──────────────────────────────────────────────────────────────
-- C8: totality of the cookie callbacks
-- ──────────────────────────────────────────────────────────────

/-- Claim C8: the installed set-callback is total — for every cookie store
and every list of cookies to write, including stores whose underlying set
operation throws, the callback returns normally (never the thrown case);
and the get-all callback returns exactly the cookies of the current
request. -/
theorem cookie_callbacks_total (store : CookieStore) (cookiesToSet : List Cookie) :
    isThrown (serverCookiesSetAll store cookiesToSet) = false ∧
    serverCookiesGetAll store = store.cookies := by
  constructor
  · unfold serverCookiesSetAll
    cases hl : cookieSetLoop store cookiesToSet with
    | mk s2 e =>
      cases e <;> rfl
  · rfl

-- ──────────────────────────────────────────────────────────────
-- Auth hook (useAuth.ts)
-- ──────────────────────────────────────────────────────────────

/-- The four state fields of the `useAuth` hook. -/
structure AuthState where
  user : Option User
  session : Option Session
  loading : Bool
  error : Option String
  deriving DecidableEq, Repr

/-- Initial hook state (useAuth.ts lines 82 to 85): user and session null,
loading true, error null. -/
def initialAuthState : AuthState :=
  { user := none, session := none, loading := true, error := none }

/-- Navigation effects the hook can trigger on the router. -/
inductive RouterAction where
  | push : String → RouterAction
  | refresh : RouterAction
  deriving DecidableEq, Repr

/-- Outcome of the SDK call `supabase.auth.signOut()`: resolved with no
error, resolved with `{ error }` carrying a message, or rejected (threw). -/
inductive SignOutSdk where
  | ok : SignOutSdk
  | errResult : String → SignOutSdk
  | thrown : JsErr → SignOutSdk
  deriving DecidableEq, Repr

/-- Embedding of the hook `signOut` (useAuth.ts lines 134 to 159), as a
function of the state at entry and the SDK call outcome. Returns the
state after the operation completes, the router effects triggered, and
whether the operation re-throws (`Except.error` carries the message of
the value thrown to the caller).

Trace of the source: set loading true and error null; await the SDK call;
if it returned an error object, record its message and throw it — the
catch records the message again and re-throws; on success clear user and
session, then push the home route and refresh; if the SDK call itself
threw, the catch records the extracted message and re-throws; finally set
loading false. -/
def signOut (s : AuthState) (r : SignOutSdk) :
    AuthState × List RouterAction × Except String Unit :=
  let s0 := { s with loading := true, error := none }
  match r with
  | SignOutSdk.ok =>
    let s1 := { s0 with user := none, session := none }
    ({ s1 with loading := false },
      [RouterAction.push "/", RouterAction.refresh], Except.ok ())
  | SignOutSdk.errResult m =>
    let s1 := { s0 with error := some m }
    let s2 := { s1 with error := some m }
    ({ s2 with loading := false }, [], Except.error m)
  | SignOutSdk.thrown e =>
    let m := errMessage "Failed to sign out" e
    let s1 := { s0 with error := some m }
    ({ s1 with loading := false }, [], Except.error m)

/-- Outcome of the SDK call `supabase.auth.getSession()` during mount. -/
inductive GetSessionSdk where
  | ok : Option Session → GetSessionSdk
  | errResult : String → GetSessionSdk
  | thrown : JsErr → GetSessionSdk
  deriving DecidableEq, Repr

/-- The value of `currentSession?.user ?? null`. -/
def sessionUser : Option Session → Option User
  | some ss => some ss.user
  | none => none

/-- Embedding of `getInitialSession` (useAuth.ts lines 89 to 108), as a
function of the state at entry and the SDK call outcome: on an error
result, record the message and return early; on success, store the
session and its user; if the call threw, the catch records the extracted
message; finally set loading false. -/
def getInitialSession (s : AuthState) (r : GetSessionSdk) : AuthState :=
  match r with
  | GetSessionSdk.ok currentSession =>
    { s with session := currentSession, user := sessionUser currentSession,
             loading := false }
  | GetSessionSdk.errResult m =>
    { s with error := some m, loading := false }
  | GetSessionSdk.thrown e =>
    { s with error := some (errMessage "Failed to get session" e), loading := false }

/-- The mount effect of the hook (useAuth.ts lines 87 to 110), restricted
to the initial fetch: runs `getInitialSession` once from the initial
state. The second component counts how many `getSession` SDK calls the
effect body issues (the body calls `getInitialSession()` exactly once). -/
def mountInitialFetch (r : GetSessionSdk) : AuthState × Nat :=
  (getInitialSession initialAuthState r, 1)

-- ──────────────────────────────────────────────────────────────
-- C4, C5, C9: signOut
-- ──────────────────────────────────────────────────────────────

/-- Claim C4: whenever `signOut` completes and the SDK sign-out succeeded,
the resulting state has user null, session null and loading false (error
is also cleared), and the triggered effects are exactly navigation to the
home route followed by a refresh; this holds from every starting state. -/
theorem signOut_success (s : AuthState) :
    signOut s SignOutSdk.ok =
      ({ user := none, session := none, loading := false, error := none },
        [RouterAction.push "/", RouterAction.refresh], Except.ok ()) :=
  rfl

/-- Claim C5: whenever the SDK sign-out call fails — returning an error
object or throwing — `signOut` completes with the error field holding the
failure message, loading false, no navigation, and the failure re-raised
to the caller; this holds from every starting state. -/
theorem signOut_failure (s : AuthState) (m : String) (e : JsErr) :
    signOut s (SignOutSdk.errResult m) =
      ({ s with loading := false, error := some m }, [], Except.error m) ∧
    signOut s (SignOutSdk.thrown e) =
      ({ s with loading := false, error := some (errMessage "Failed to sign out" e) },
        [], Except.error (errMessage "Failed to sign out" e)) :=
  ⟨rfl, rfl⟩

/-- Claim C9: on a failed sign-out — SDK error result or throw — the user
and session fields after the operation equal their values before the
call; clearing happens only on the success path. -/
theorem signOut_failure_preserves_identity (s : AuthState) (m : String) (e : JsErr) :
    ((signOut s (SignOutSdk.errResult m)).1.user = s.user ∧
      (signOut s (SignOutSdk.errResult m)).1.session = s.session) ∧
    ((signOut s (SignOutSdk.thrown e)).1.user = s.user ∧
      (signOut s (SignOutSdk.thrown e)).1.session = s.session) :=
  ⟨⟨rfl, rfl⟩, ⟨rfl, rfl⟩⟩

-- ──────────────────────────────────────────────────────────────
-- C6, C10: the initial session fetch on mount
-- ──────────────────────────────────────────────────────────────

/-- Claim C6: on a mount whose initial session fetch succeeds, the state
goes from the initial state with loading true to one where session holds
the fetched session, user holds that session user (null when the session
is null) and loading is false; the fetch is issued exactly once. -/
theorem mount_initial_fetch_success (sess : Option Session) :
    initialAuthState.loading = true ∧
    mountInitialFetch (GetSessionSdk.ok sess) =
      ({ user := sessionUser sess, session := sess, loading := false, error := none },
        1) :=
  ⟨rfl, rfl⟩

/-- Claim C10: after the initial fetch completes, loading is false for
every outcome; on an SDK error result or a throw, the error field holds
the failure message while user and session stay null (their initial
values). -/
theorem mount_initial_fetch_failure (r : GetSessionSdk) (m : String) (e : JsErr) :
    (getInitialSession initialAuthState r).loading = false ∧
    getInitialSession initialAuthState (GetSessionSdk.errResult m) =
      { user := none, session := none, loading := false, error := some m } ∧
    getInitialSession initialAuthState (GetSessionSdk.thrown e) =
      { user := none, session := none, loading := false,
        error := some (errMessage "Failed to get session" e) } := by
  refine ⟨?_, rfl, rfl⟩
  cases r <;> rfl
